import Mathlib

/-!
SafeLink backend: a shallow embedding of the ARP detection and
continuous-learning pipeline of the repository, with proofs about the
embedded operations.  Python floats are modelled as rationals,
dictionaries as functions into `Option`, `collections.deque` as lists
whose head is the oldest element, and the file system as a map from
path strings to byte lists.
-/

namespace SafeLink

/-- An ARP frame as the detectors read it (scapy layer fields `psrc`,
`hwsrc`, `pdst`, `hwdst`, `op`; opcode 1 = request, 2 = reply). -/
structure ArpFrame where
  psrc : String
  hwsrc : String
  pdst : String
  hwdst : String
  op : Nat
deriving DecidableEq

/-- Structured rendering of the `details` dict returned by
`DFAFilter.check` in `core/dfa_filter.py`. -/
inductive CheckDetails where
  | empty : CheckDetails
  | conflict (ip prev_mac new_mac : String) : CheckDetails
  | flood (mac : String) (count : Nat) : CheckDetails
deriving DecidableEq

/-- State of `core/dfa_filter.py:DFAFilter`: the `ip_mac` binding dict
and the per-source-MAC deque of observation timestamps. -/
structure DFAFilter where
  ip_mac : String → Option String
  grat_counts : String → List ℚ
  grat_threshold : Nat
  grat_window : ℚ

/-- `DFAFilter.__init__` with explicit `gratuitous_threshold` and
`grat_window` (source defaults: 5 and 5.0). -/
def DFAFilter.init (gratuitous_threshold : Nat) (grat_window : ℚ) : DFAFilter :=
  { ip_mac := fun _ => none
    grat_counts := fun _ => []
    grat_threshold := gratuitous_threshold
    grat_window := grat_window }

/-- Store a new `ip -> mac` entry in the binding dict. -/
def DFAFilter.bindIp (s : DFAFilter) (ip mac : String) : DFAFilter :=
  { s with ip_mac := fun k => if k = ip then some mac else s.ip_mac k }

/-- The deque for `mac` after appending `now` and popping entries older
than the window from the front (`dq.append(now)` followed by the
`while ... popleft()` loop). -/
def DFAFilter.prunedDeque (s : DFAFilter) (mac : String) (now : ℚ) : List ℚ :=
  (s.grat_counts mac ++ [now]).dropWhile (fun t => decide (now - t > s.grat_window))

/-- The filter state after storing the pruned deque for `mac`. -/
def DFAFilter.pruneState (s : DFAFilter) (mac : String) (now : ℚ) : DFAFilter :=
  { s with grat_counts := fun m => if m = mac then s.prunedDeque mac now
                                   else s.grat_counts m }

/-- Rule 2 of `DFAFilter.check`: update the source-MAC deque and flag a
flood when its length exceeds the threshold. -/
def DFAFilter.gratCheck (s : DFAFilter) (pkt : ArpFrame) (now : ℚ) :
    (Bool × String × CheckDetails) × DFAFilter :=
  if s.grat_threshold < (s.prunedDeque pkt.hwsrc now).length then
    ((true,
      "Excessive gratuitous ARPs from " ++ pkt.hwsrc ++ " ("
        ++ toString (s.prunedDeque pkt.hwsrc now).length
        ++ " in " ++ toString s.grat_window ++ "s)",
      CheckDetails.flood pkt.hwsrc (s.prunedDeque pkt.hwsrc now).length),
     s.pruneState pkt.hwsrc now)
  else ((false, "ok", CheckDetails.empty), s.pruneState pkt.hwsrc now)

/-- `DFAFilter.check`: rule 1 (IP-MAC mapping conflict, with early
return and binding overwrite), otherwise store a fresh binding if the
sender IP is new and run rule 2.  The verdict mirrors the source's
`(is_suspicious, reason, details)` triple. -/
def DFAFilter.check (s : DFAFilter) (pkt : ArpFrame) (now : ℚ) :
    (Bool × String × CheckDetails) × DFAFilter :=
  match s.ip_mac pkt.psrc with
  | some prev =>
      if prev = pkt.hwsrc then s.gratCheck pkt now
      else
        ((true,
          "IP-MAC conflict: " ++ pkt.psrc ++ " previous " ++ prev ++ " now " ++ pkt.hwsrc,
          CheckDetails.conflict pkt.psrc prev pkt.hwsrc),
         s.bindIp pkt.psrc pkt.hwsrc)
  | none => (s.bindIp pkt.psrc pkt.hwsrc).gratCheck pkt now

/-- A verdict is an IP-MAC conflict when its details are the conflict
record. -/
def isConflictVerdict (v : Bool × String × CheckDetails) : Bool :=
  match v.2.2 with
  | CheckDetails.conflict _ _ _ => true
  | _ => false

/-- Fold a timed frame stream through `DFAFilter.check`, keeping the
final filter state. -/
def DFAFilter.runState (s : DFAFilter) (l : List (ArpFrame × ℚ)) : DFAFilter :=
  l.foldl (fun st p => (st.check p.1 p.2).2) s

lemma bindIp_lookup_self (s : DFAFilter) (ip mac : String) :
    (s.bindIp ip mac).ip_mac ip = some mac := by
  simp [DFAFilter.bindIp]

lemma gratCheck_not_conflict (s : DFAFilter) (pkt : ArpFrame) (now : ℚ) :
    isConflictVerdict (s.gratCheck pkt now).1 = false := by
  unfold DFAFilter.gratCheck
  split <;> rfl

lemma gratCheck_snd (s : DFAFilter) (pkt : ArpFrame) (now : ℚ) :
    (s.gratCheck pkt now).2 = s.pruneState pkt.hwsrc now := by
  unfold DFAFilter.gratCheck
  split <;> rfl

lemma gratCheck_snd_ip_mac (s : DFAFilter) (pkt : ArpFrame) (now : ℚ) :
    (s.gratCheck pkt now).2.ip_mac = s.ip_mac := by
  rw [gratCheck_snd]
  rfl

lemma gratCheck_flood_iff (s : DFAFilter) (pkt : ArpFrame) (now : ℚ) :
    (s.gratCheck pkt now).1.1 = true
      ↔ s.grat_threshold < (s.prunedDeque pkt.hwsrc now).length := by
  unfold DFAFilter.gratCheck
  split <;> simp_all

lemma check_of_none (s : DFAFilter) (pkt : ArpFrame) (now : ℚ)
    (h : s.ip_mac pkt.psrc = none) :
    s.check pkt now = (s.bindIp pkt.psrc pkt.hwsrc).gratCheck pkt now := by
  unfold DFAFilter.check
  rw [h]

lemma check_of_same (s : DFAFilter) (pkt : ArpFrame) (now : ℚ)
    (h : s.ip_mac pkt.psrc = some pkt.hwsrc) :
    s.check pkt now = s.gratCheck pkt now := by
  unfold DFAFilter.check
  rw [h]
  simp

lemma check_of_conflict (s : DFAFilter) (pkt : ArpFrame) (now : ℚ) (prev : String)
    (h : s.ip_mac pkt.psrc = some prev) (hne : prev ≠ pkt.hwsrc) :
    s.check pkt now
      = ((true,
          "IP-MAC conflict: " ++ pkt.psrc ++ " previous " ++ prev ++ " now " ++ pkt.hwsrc,
          CheckDetails.conflict pkt.psrc prev pkt.hwsrc),
         s.bindIp pkt.psrc pkt.hwsrc) := by
  unfold DFAFilter.check
  rw [h]
  simp [hne]

lemma check_conflict_step (s : DFAFilter) (pkt : ArpFrame) (now : ℚ) :
    (isConflictVerdict (s.check pkt now).1 = true ↔
      ∃ m, s.ip_mac pkt.psrc = some m ∧ m ≠ pkt.hwsrc)
    ∧ (∀ m, s.ip_mac pkt.psrc = some m → m ≠ pkt.hwsrc →
        (s.check pkt now).2.ip_mac pkt.psrc = some pkt.hwsrc)
    ∧ (s.ip_mac pkt.psrc = none →
        (s.check pkt now).2.ip_mac pkt.psrc = some pkt.hwsrc
          ∧ isConflictVerdict (s.check pkt now).1 = false) := by
  rcases h : s.ip_mac pkt.psrc with _ | prev
  · rw [check_of_none s pkt now h]
    refine ⟨?_, ?_, ?_⟩
    · rw [gratCheck_not_conflict]
      refine iff_of_false (by simp) ?_
      rintro ⟨m, hm, _⟩
      exact Option.noConfusion hm
    · intro m hm
      exact absurd hm (by simp)
    · intro _
      rw [gratCheck_snd_ip_mac]
      exact ⟨bindIp_lookup_self s pkt.psrc pkt.hwsrc,
             gratCheck_not_conflict (s.bindIp pkt.psrc pkt.hwsrc) pkt now⟩
  · by_cases hpm : prev = pkt.hwsrc
    · subst hpm
      rw [check_of_same s pkt now h]
      refine ⟨?_, ?_, ?_⟩
      · rw [gratCheck_not_conflict]
        refine iff_of_false (by simp) ?_
        rintro ⟨m, hm, hne⟩
        exact hne (Option.some.inj hm).symm
      · intro m hm hne
        exact absurd (Option.some.inj hm).symm hne
      · intro hnone
        exact absurd hnone (by simp)
    · rw [check_of_conflict s pkt now prev h hpm]
      refine ⟨?_, ?_, ?_⟩
      · exact iff_of_true rfl ⟨prev, rfl, hpm⟩
      · intro m _ _
        exact bindIp_lookup_self s pkt.psrc pkt.hwsrc
      · intro hnone
        exact absurd hnone (by simp)

/-- C5: for every frame stream fed to a fresh DFA filter, frame `i`
raises an IP-MAC conflict alert iff a binding for its sender IP existed
before frame `i` with a different MAC; on a conflict the binding is
overwritten with the new MAC, and on a first sighting the binding is
created without a conflict alert. -/
theorem dfa_conflict_iff_changed (l : List (ArpFrame × ℚ)) (K : Nat) (W : ℚ)
    (i : Nat) (h : i < l.length) :
    let s := DFAFilter.runState (DFAFilter.init K W) (l.take i)
    let pkt := (l.get ⟨i, h⟩).1
    let v := s.check pkt (l.get ⟨i, h⟩).2
    (isConflictVerdict v.1 = true ↔ ∃ m, s.ip_mac pkt.psrc = some m ∧ m ≠ pkt.hwsrc)
    ∧ (∀ m, s.ip_mac pkt.psrc = some m → m ≠ pkt.hwsrc →
        v.2.ip_mac pkt.psrc = some pkt.hwsrc)
    ∧ (s.ip_mac pkt.psrc = none →
        v.2.ip_mac pkt.psrc = some pkt.hwsrc ∧ isConflictVerdict v.1 = false) :=
  check_conflict_step _ _ _

/-- Witness for C5: in the two-frame spoofing stream of the spec's
Scenario A, frame 1 raises the conflict alert, obtained by applying the
theorem at the concrete stream. -/
theorem dfa_conflict_iff_changed_witness :
    isConflictVerdict
      ((DFAFilter.runState (DFAFilter.init 5 5)
          ([(⟨"192.168.1.1", "AA:BB:CC:11:22:33", "192.168.1.50", "", 2⟩, 0),
            (⟨"192.168.1.1", "BA:DD:C0:FF:EE:00", "192.168.1.50", "", 2⟩, 1)].take 1)).check
        ⟨"192.168.1.1", "BA:DD:C0:FF:EE:00", "192.168.1.50", "", 2⟩ 1).1 = true := by
  have h := dfa_conflict_iff_changed
    [(⟨"192.168.1.1", "AA:BB:CC:11:22:33", "192.168.1.50", "", 2⟩, 0),
     (⟨"192.168.1.1", "BA:DD:C0:FF:EE:00", "192.168.1.50", "", 2⟩, 1)] 5 5 1 (by decide)
  refine h.1.mpr ⟨"AA:BB:CC:11:22:33", ?_, by decide⟩
  show (DFAFilter.runState (DFAFilter.init 5 5) _).ip_mac "192.168.1.1" = _
  rw [List.take, List.take]
  rw [show DFAFilter.runState (DFAFilter.init 5 5)
        [(⟨"192.168.1.1", "AA:BB:CC:11:22:33", "192.168.1.50", "", 2⟩, (0:ℚ))]
      = (((DFAFilter.init 5 5).check
          ⟨"192.168.1.1", "AA:BB:CC:11:22:33", "192.168.1.50", "", 2⟩ 0)).2 from rfl]
  rw [check_of_none _ _ _ rfl, gratCheck_snd_ip_mac]
  exact bindIp_lookup_self _ _ _

lemma pruneState_lookup_self (s : DFAFilter) (mac : String) (now : ℚ) :
    (s.pruneState mac now).grat_counts mac = s.prunedDeque mac now := by
  simp [DFAFilter.pruneState]

lemma mem_dropWhile_window (now W : ℚ) (l : List ℚ) (hs : l.Sorted (· ≤ ·)) :
    ∀ t ∈ l.dropWhile (fun t => decide (now - t > W)), now - t ≤ W := by
  induction l with
  | nil => intro t ht; simp at ht
  | cons a l ih =>
    intro t ht
    rcases le_or_lt (now - a) W with hpa | hpa
    · rw [List.dropWhile_cons, if_neg (by simp [not_lt.mpr hpa])] at ht
      rcases List.mem_cons.mp ht with rfl | htl
      · exact hpa
      · have hat : a ≤ t := (List.sorted_cons.mp hs).1 t htl
        linarith
    · rw [List.dropWhile_cons, if_pos (by simp [hpa])] at ht
      exact ih hs.of_cons t ht

lemma sorted_append_now (now : ℚ) (l : List ℚ) (hs : l.Sorted (· ≤ ·))
    (hle : ∀ t ∈ l, t ≤ now) : (l ++ [now]).Sorted (· ≤ ·) := by
  refine List.pairwise_append.mpr ⟨hs, by simp, ?_⟩
  intro a ha b hb
  rcases List.mem_singleton.mp hb with rfl
  exact hle a ha

lemma gratCheck_window (s : DFAFilter) (pkt : ArpFrame) (now : ℚ)
    (hsort : (s.grat_counts pkt.hwsrc).Sorted (· ≤ ·))
    (hle : ∀ t ∈ s.grat_counts pkt.hwsrc, t ≤ now) :
    (∀ t ∈ (s.gratCheck pkt now).2.grat_counts pkt.hwsrc, now - t ≤ s.grat_window)
    ∧ ((s.gratCheck pkt now).1.1 = true
        ↔ s.grat_threshold < ((s.gratCheck pkt now).2.grat_counts pkt.hwsrc).length) := by
  rw [gratCheck_snd, pruneState_lookup_self]
  constructor
  · exact mem_dropWhile_window now s.grat_window _ (sorted_append_now now _ hsort hle)
  · exact gratCheck_flood_iff s pkt now

/-- C6 (amended): for every check that does not return an IP-MAC
conflict (the conflict branch returns early without touching the
deques), given a time-ordered deque for the frame's source MAC, after
the check that MAC's deque contains only timestamps within the window
of the check time, and a flood alert is raised iff the deque length
exceeds the threshold after the append and prune.  Deques of other
MACs, and the deque of the frame's own MAC on a conflict frame, are not
pruned (see the counterexample). -/
theorem dfa_flood_window_amended (s : DFAFilter) (pkt : ArpFrame) (now : ℚ)
    (hnc : ∀ m, s.ip_mac pkt.psrc = some m → m = pkt.hwsrc)
    (hsort : (s.grat_counts pkt.hwsrc).Sorted (· ≤ ·))
    (hle : ∀ t ∈ s.grat_counts pkt.hwsrc, t ≤ now) :
    (∀ t ∈ (s.check pkt now).2.grat_counts pkt.hwsrc, now - t ≤ s.grat_window)
    ∧ ((s.check pkt now).1.1 = true
        ↔ s.grat_threshold < ((s.check pkt now).2.grat_counts pkt.hwsrc).length) := by
  rcases h : s.ip_mac pkt.psrc with _ | prev
  · rw [check_of_none s pkt now h]
    exact gratCheck_window (s.bindIp pkt.psrc pkt.hwsrc) pkt now hsort hle
  · have hprev : prev = pkt.hwsrc := hnc prev h
    subst hprev
    rw [check_of_same s pkt now h]
    exact gratCheck_window s pkt now hsort hle

/-- A hand-built filter state used to exercise the flood branch. -/
def floodState : DFAFilter :=
  { ip_mac := fun _ => none
    grat_counts := fun m => if m = "aa" then [0, 1] else []
    grat_threshold := 2
    grat_window := 5 }

/-- Witness for C6 (amended): at a concrete state whose deque for the
source MAC holds two fresh timestamps, the checked frame floods iff the
pruned deque exceeds the threshold, via the theorem. -/
theorem dfa_flood_window_amended_witness :
    (floodState.check ⟨"10.0.0.9", "aa", "", "", 2⟩ 2).1.1 = true
      ↔ 2 < ((floodState.check ⟨"10.0.0.9", "aa", "", "", 2⟩ 2).2.grat_counts "aa").length :=
  (dfa_flood_window_amended floodState ⟨"10.0.0.9", "aa", "", "", 2⟩ 2
    (by intro m hm; exact absurd hm (by simp [floodState]))
    (by simp [floodState, List.sorted_cons])
    (by simp [floodState])).2

/-- Counterexample for C6 as stated: after the third check of this
stream (an IP-MAC conflict frame at time 10 whose source MAC is "aa"),
the deque for "aa" still holds the timestamp 0, which is outside the
5-second window of the current time 10; the conflict branch returned
before the prune, so the claimed whole-state window invariant fails. -/
theorem dfa_deque_window_counterexample :
    (DFAFilter.runState (DFAFilter.init 5 5)
        [(⟨"10.0.0.1", "aa", "", "", 2⟩, 0),
         (⟨"10.0.0.2", "bb", "", "", 2⟩, 0),
         (⟨"10.0.0.2", "aa", "", "", 2⟩, 10)]).grat_counts "aa" = [0]
    ∧ ¬((10:ℚ) - 0 ≤ 5) := by
  have hne21 : ("10.0.0.2" : String) ≠ "10.0.0.1" := by decide
  have hne_ba : ("bb" : String) ≠ "aa" := by decide
  have hne_ab : ("aa" : String) ≠ "bb" := by decide
  constructor
  · show ((((DFAFilter.init 5 5).check ⟨"10.0.0.1", "aa", "", "", 2⟩ 0).2.check
        ⟨"10.0.0.2", "bb", "", "", 2⟩ 0).2.check
        ⟨"10.0.0.2", "aa", "", "", 2⟩ 10).2.grat_counts "aa" = [0]
    rw [check_of_none (DFAFilter.init 5 5) _ 0 rfl, gratCheck_snd]
    set s1 := ((DFAFilter.init 5 5).bindIp "10.0.0.1" "aa").pruneState "aa" 0 with hs1
    have ha : s1.ip_mac "10.0.0.2" = none := by
      simp [hs1, DFAFilter.pruneState, DFAFilter.bindIp, DFAFilter.init, hne21]
    have hb : s1.grat_counts "aa" = [0] := by
      norm_num [hs1, DFAFilter.pruneState, DFAFilter.prunedDeque, DFAFilter.bindIp,
        DFAFilter.init, List.dropWhile_cons]
    rw [check_of_none s1 _ 0 ha, gratCheck_snd]
    set s2 := (s1.bindIp "10.0.0.2" "bb").pruneState "bb" 0 with hs2
    have hc : s2.ip_mac "10.0.0.2" = some "bb" := by
      simp [hs2, DFAFilter.pruneState, DFAFilter.bindIp]
    have hd : s2.grat_counts "aa" = [0] := by
      simp [hs2, DFAFilter.pruneState, DFAFilter.bindIp, hne_ab, hb]
    rw [check_of_conflict s2 _ 10 "bb" hc hne_ba]
    show (s2.bindIp "10.0.0.2" "aa").grat_counts "aa" = [0]
    simpa [DFAFilter.bindIp] using hd
  · norm_num

/-- `core/arp_analyzer.py:ARPPacketInfo`. -/
structure ARPPacketInfo where
  timestamp : ℚ
  src_mac : String
  dst_mac : String
  src_ip : String
  dst_ip : String
  opcode : Nat
  is_gratuitous : Bool
  is_probe : Bool
  inter_arrival_time : ℚ
deriving DecidableEq

/-- The `stats` dict of `ARPAnalyzer`. -/
structure ARPStats where
  total_packets : Nat
  gratuitous_count : Nat
  probe_count : Nat
  request_count : Nat
  reply_count : Nat
  unmatched_replies : Nat
  avg_inter_arrival : ℚ
deriving DecidableEq

/-- State of `core/arp_analyzer.py:ARPAnalyzer`.  The per-IP history
dict, last-seen dict and pending-request dict become functions; a
defaultdict key "exists" iff its history list is nonempty. -/
structure ARPAnalyzer where
  max_history : Nat
  timing_window : Nat
  packet_history : String → List ARPPacketInfo
  last_packet_time : String → Option ℚ
  pending_requests : String × String → Option ℚ
  stats : ARPStats

/-- `ARPAnalyzer.__init__` (source defaults: 1000 and 60). -/
def ARPAnalyzer.init (max_history timing_window : Nat) : ARPAnalyzer :=
  { max_history := max_history
    timing_window := timing_window
    packet_history := fun _ => []
    last_packet_time := fun _ => none
    pending_requests := fun _ => none
    stats := ⟨0, 0, 0, 0, 0, 0, 0⟩ }

/-- `deque(maxlen=n).append`: drop from the left when the deque is
full. -/
def dequeAppend {α : Type} (n : Nat) (l : List α) (x : α) : List α :=
  (l ++ [x]).drop ((l ++ [x]).length - n)

/-- `str.upper()` for the ASCII strings handled here (MAC addresses,
reasons), spelled out over the character list so that it evaluates. -/
def strToUpper (s : String) : String :=
  String.mk (s.data.map Char.toUpper)

/-- `ARPAnalyzer._is_gratuitous_arp`. -/
def isGratuitousArp (src_ip dst_ip : String) (opcode : Nat) (dst_mac : String) : Bool :=
  if src_ip = dst_ip then true
  else if opcode = 2 ∧ strToUpper dst_mac = "FF:FF:FF:FF:FF:FF" then true
  else false

/-- `ARPAnalyzer._is_arp_probe`. -/
def isArpProbe (src_ip : String) (opcode : Nat) : Bool :=
  decide (opcode = 1 ∧ src_ip = "0.0.0.0")

/-- `ARPAnalyzer._update_statistics` (counters, then the running
average of positive inter-arrival times). -/
def updateStatistics (st : ARPStats) (pi : ARPPacketInfo) (opcode : Nat) : ARPStats :=
  let st1 := { st with total_packets := st.total_packets + 1 }
  let st2 := if pi.is_gratuitous then
      { st1 with gratuitous_count := st1.gratuitous_count + 1 } else st1
  let st3 := if pi.is_probe then { st2 with probe_count := st2.probe_count + 1 } else st2
  let st4 := if opcode = 1 then { st3 with request_count := st3.request_count + 1 }
      else if opcode = 2 then { st3 with reply_count := st3.reply_count + 1 } else st3
  if 0 < pi.inter_arrival_time then
    { st4 with avg_inter_arrival :=
        (st4.avg_inter_arrival * ((st4.total_packets : ℚ) - 1) + pi.inter_arrival_time)
          / (st4.total_packets : ℚ) }
  else st4

/-- `ARPAnalyzer.analyze_packet`: inter-arrival from the last-seen
dict, packet-info record, statistics, bounded history push, and the
pending-request bookkeeping (record on request; on reply either match
and delete, or count an unmatched reply). -/
def ARPAnalyzer.analyze_packet (a : ARPAnalyzer) (src_mac dst_mac src_ip dst_ip : String)
    (opcode : Nat) (now : ℚ) : ARPPacketInfo × ARPAnalyzer :=
  let inter_arrival : ℚ :=
    match a.last_packet_time src_ip with
    | some t => now - t
    | none => 0
  let a1 := { a with last_packet_time := fun ip =>
      if ip = src_ip then some now else a.last_packet_time ip }
  let pi : ARPPacketInfo :=
    { timestamp := now, src_mac := src_mac, dst_mac := dst_mac, src_ip := src_ip,
      dst_ip := dst_ip, opcode := opcode,
      is_gratuitous := isGratuitousArp src_ip dst_ip opcode dst_mac,
      is_probe := isArpProbe src_ip opcode,
      inter_arrival_time := inter_arrival }
  let a2 := { a1 with stats := updateStatistics a1.stats pi opcode }
  let a3 := { a2 with packet_history := fun ip =>
      if ip = src_ip then dequeAppend a2.max_history (a2.packet_history src_ip) pi
      else a2.packet_history ip }
  let a4 :=
    if opcode = 1 then
      { a3 with pending_requests := fun k =>
          if k = (src_ip, dst_ip) then some now else a3.pending_requests k }
    else if opcode = 2 then
      match a3.pending_requests (dst_ip, src_ip) with
      | none =>
          { a3 with stats :=
              { a3.stats with unmatched_replies := a3.stats.unmatched_replies + 1 } }
      | some _ =>
          { a3 with pending_requests := fun k =>
              if k = (dst_ip, src_ip) then none else a3.pending_requests k }
    else a3
  (pi, a4)

/-- The timing-feature dict of `ARPAnalyzer.get_timing_features`.  The
source also reports `std_inter_arrival = variance ** 0.5`; the square
root is irrational and unused by every consumer modelled here, so the
variance is carried instead. -/
structure TimingFeatures where
  min_inter_arrival : ℚ
  max_inter_arrival : ℚ
  avg_inter_arrival : ℚ
  var_inter_arrival : ℚ
  packet_rate : ℚ
deriving DecidableEq

def TimingFeatures.zeros : TimingFeatures := ⟨0, 0, 0, 0, 0⟩

def listMinQ : List ℚ → ℚ
  | [] => 0
  | h :: t => t.foldl min h

def listMaxQ : List ℚ → ℚ
  | [] => 0
  | h :: t => t.foldl max h

def piDefault : ARPPacketInfo := ⟨0, "", "", "", "", 0, false, false, 0⟩

/-- `ARPAnalyzer.get_timing_features`.  `src_ip not in packet_history`
is modelled as an empty history list (a defaultdict key always carries
at least one packet once created by `analyze_packet`). -/
def ARPAnalyzer.get_timing_features (a : ARPAnalyzer) (src_ip : String) : TimingFeatures :=
  let packets := a.packet_history src_ip
  if packets = [] then TimingFeatures.zeros
  else if packets.length < 2 then TimingFeatures.zeros
  else
    let inter_arrivals :=
      (packets.filter (fun p => decide (0 < p.inter_arrival_time))).map
        (fun p => p.inter_arrival_time)
    if inter_arrivals = [] then TimingFeatures.zeros
    else
      let avg_iat := inter_arrivals.sum / (inter_arrivals.length : ℚ)
      let variance :=
        ((inter_arrivals.map (fun x => (x - avg_iat) * (x - avg_iat))).sum)
          / (inter_arrivals.length : ℚ)
      let time_span := (packets.getLastD piDefault).timestamp
          - (packets.headD piDefault).timestamp
      { min_inter_arrival := listMinQ inter_arrivals
        max_inter_arrival := listMaxQ inter_arrivals
        avg_inter_arrival := avg_iat
        var_inter_arrival := variance
        packet_rate := if 0 < time_span then (packets.length : ℚ) / time_span else 0 }

/-- The anomaly dict of `ARPAnalyzer.detect_anomalies`. -/
structure AnomalyResult where
  has_anomaly : Bool
  anomalies : List String
  severity : ℚ
  features : TimingFeatures

/-- `ARPAnalyzer.detect_anomalies`.  The source appends anomaly strings
and adds weights one `if` at a time; here the appends and the additions
are laid out as one concatenation and one sum over the same guards in
the same order.  Float formatting of rates and intervals is rendered
with `toString`. -/
def ARPAnalyzer.detect_anomalies (a : ARPAnalyzer) (pi : ARPPacketInfo) : AnomalyResult :=
  let tf := a.get_timing_features pi.src_ip
  let anomalies :=
    (if pi.is_gratuitous then ["Gratuitous ARP detected"] else [])
    ++ (if pi.is_probe then ["ARP probe detected"] else [])
    ++ (if 10 < tf.packet_rate then
          ["High packet rate: " ++ toString tf.packet_rate ++ " pkt/s"] else [])
    ++ (if 0 < pi.inter_arrival_time ∧ pi.inter_arrival_time < 1/10 then
          ["Rapid packets: " ++ toString (pi.inter_arrival_time * 1000) ++ "ms interval"]
        else [])
    ++ (if pi.opcode = 2 ∧ a.pending_requests (pi.dst_ip, pi.src_ip) = none then
          ["Unsolicited ARP reply (no matching request)"] else [])
  let severity : ℚ :=
    (if pi.is_gratuitous then (2/5 : ℚ) else 0)
    + (if pi.is_probe then (1/10 : ℚ) else 0)
    + (if 10 < tf.packet_rate then (3/10 : ℚ) else 0)
    + (if 0 < pi.inter_arrival_time ∧ pi.inter_arrival_time < 1/10 then (1/5 : ℚ) else 0)
    + (if pi.opcode = 2 ∧ a.pending_requests (pi.dst_ip, pi.src_ip) = none then
        (1/2 : ℚ) else 0)
  { has_anomaly := !anomalies.isEmpty
    anomalies := anomalies
    severity := min severity 1
    features := tf }

lemma analyze_packet_fst (a : ARPAnalyzer) (src_mac dst_mac src_ip dst_ip : String)
    (opcode : Nat) (now : ℚ) :
    (a.analyze_packet src_mac dst_mac src_ip dst_ip opcode now).1
      = { timestamp := now, src_mac := src_mac, dst_mac := dst_mac, src_ip := src_ip,
          dst_ip := dst_ip, opcode := opcode,
          is_gratuitous := isGratuitousArp src_ip dst_ip opcode dst_mac,
          is_probe := isArpProbe src_ip opcode,
          inter_arrival_time :=
            match a.last_packet_time src_ip with
            | some t => now - t
            | none => 0 } := rfl

lemma analyze_reply_clears_pending (a : ARPAnalyzer)
    (src_mac dst_mac src_ip dst_ip : String) (now : ℚ) :
    (a.analyze_packet src_mac dst_mac src_ip dst_ip 2 now).2.pending_requests
      (dst_ip, src_ip) = none := by
  unfold ARPAnalyzer.analyze_packet
  rcases h : a.pending_requests (dst_ip, src_ip) with _ | t <;> simp [h]

lemma detect_unsolicited (a : ARPAnalyzer) (pi : ARPPacketInfo)
    (hop : pi.opcode = 2) (hpend : a.pending_requests (pi.dst_ip, pi.src_ip) = none) :
    "Unsolicited ARP reply (no matching request)" ∈ (a.detect_anomalies pi).anomalies
    ∧ 1/2 ≤ (a.detect_anomalies pi).severity := by
  unfold ARPAnalyzer.detect_anomalies
  constructor
  · simp [hop, hpend]
  · dsimp only
    rw [le_min_iff]
    refine ⟨?_, by norm_num⟩
    have hA : 0 ≤ (if pi.is_gratuitous then (2/5 : ℚ) else 0) := by split <;> norm_num
    have hB : 0 ≤ (if pi.is_probe then (1/10 : ℚ) else 0) := by split <;> norm_num
    have hC : 0 ≤ (if 10 < (a.get_timing_features pi.src_ip).packet_rate
        then (3/10 : ℚ) else 0) := by split <;> norm_num
    have hD : 0 ≤ (if 0 < pi.inter_arrival_time ∧ pi.inter_arrival_time < 1/10
        then (1/5 : ℚ) else 0) := by split <;> norm_num
    have hcond : pi.opcode = 2 ∧ a.pending_requests (pi.dst_ip, pi.src_ip) = none :=
      ⟨hop, hpend⟩
    rw [if_pos hcond]
    linarith

/-- C10: in the per-packet pipeline, `analyze_packet` runs before
`detect_anomalies` on the same packet; for every analyzer state and
every ARP reply (opcode 2), `analyze_packet` leaves no pending entry
for the reply's key (a matched entry is deleted, an unmatched one was
never there), so `detect_anomalies` always records the
"Unsolicited ARP reply" anomaly and its 0.5 severity contribution,
including for replies that matched a pending request. -/
theorem pipeline_unsolicited_always (a : ARPAnalyzer)
    (src_mac dst_mac src_ip dst_ip : String) (now : ℚ) :
    "Unsolicited ARP reply (no matching request)"
        ∈ ((a.analyze_packet src_mac dst_mac src_ip dst_ip 2 now).2.detect_anomalies
            (a.analyze_packet src_mac dst_mac src_ip dst_ip 2 now).1).anomalies
    ∧ 1/2 ≤ ((a.analyze_packet src_mac dst_mac src_ip dst_ip 2 now).2.detect_anomalies
            (a.analyze_packet src_mac dst_mac src_ip dst_ip 2 now).1).severity :=
  detect_unsolicited _ _ rfl
    (analyze_reply_clears_pending a src_mac dst_mac src_ip dst_ip now)

lemma updateStatistics_unmatched (st : ARPStats) (pi : ARPPacketInfo) (opcode : Nat) :
    (updateStatistics st pi opcode).unmatched_replies = st.unmatched_replies := by
  unfold updateStatistics
  split_ifs <;> rfl

lemma analyze_reply_unmatched_increment (a : ARPAnalyzer)
    (src_mac dst_mac src_ip dst_ip : String) (now : ℚ)
    (h : a.pending_requests (dst_ip, src_ip) = none) :
    (a.analyze_packet src_mac dst_mac src_ip dst_ip 2 now).2.stats.unmatched_replies
      = a.stats.unmatched_replies + 1 := by
  unfold ARPAnalyzer.analyze_packet
  simp [h, updateStatistics_unmatched]

/-- `s.replace(c, "")` for a single-character separator, spelled out
over the character list so that it evaluates. -/
def strRemoveChar (c : Char) (s : String) : String :=
  String.mk (s.data.filter (fun x => x ≠ c))

/-- `str.split(c)` for a single-character separator. -/
def splitOnCharList (sep : Char) : List Char → List (List Char)
  | [] => [[]]
  | c :: rest =>
      match splitOnCharList sep rest with
      | [] => [[c]]
      | h :: t => if c = sep then [] :: h :: t else (c :: h) :: t

/-- `str.split(c)` on strings. -/
def strSplitOnChar (sep : Char) (s : String) : List String :=
  (splitOnCharList sep s.data).map String.mk

/-- `core/mac_vendor.py:MACVendorChecker.normalize_mac`. -/
def normalize_mac (mac : String) : String :=
  let mac_clean := strToUpper (strRemoveChar '.' (strRemoveChar '-' (strRemoveChar ':' mac)))
  if mac_clean.length = 12 then
    String.intercalate ":"
      [mac_clean.take 2, (mac_clean.drop 2).take 2, (mac_clean.drop 4).take 2,
       (mac_clean.drop 6).take 2, (mac_clean.drop 8).take 2, (mac_clean.drop 10).take 2]
  else mac

/-- `MACVendorChecker.get_oui`. -/
def get_oui (mac : String) : String :=
  let parts := strSplitOnChar ':' (normalize_mac mac)
  if 3 ≤ parts.length then strToUpper (String.intercalate ":" (parts.take 3)) else ""

/-- `MACVendorChecker.lookup_vendor`; the hardcoded `OUI_DATABASE`
class dict is a parameter, and the per-MAC memoisation cache (pure
caching, no semantic effect) is elided. -/
def lookup_vendor (oui_db : String → Option String) (mac : String) : Option String :=
  let oui := get_oui mac
  if oui = "" then none else oui_db oui

def hexDigitVal? (c : Char) : Option Nat :=
  if '0' ≤ c ∧ c ≤ '9' then some (c.toNat - 48)
  else if 'a' ≤ c ∧ c ≤ 'f' then some (c.toNat - 87)
  else if 'A' ≤ c ∧ c ≤ 'F' then some (c.toNat - 55)
  else none

/-- `int(s, 16)` on a plain string of hex digits.  The source raises
`ValueError` on malformed input; the pipeline only feeds well-formed
MAC octets, so parse failure is mapped to `none` (never hit in any
statement below). -/
def parseHexNat? (s : String) : Option Nat :=
  if s.toList = [] then none
  else
    s.toList.foldl (fun acc c =>
      match acc, hexDigitVal? c with
      | some n, some d => some (16 * n + d)
      | _, _ => none) (some 0)

/-- The anomaly dict of `MACVendorChecker.detect_anomalies`. -/
structure VendorAnomalyResult where
  has_anomaly : Bool
  anomalies : List String
  src_vendor : Option String
  dst_vendor : Option String
  confidence : ℚ

/-- `int(src_mac.split(":")[0], 16)` as used by the heuristics. -/
def firstOctetVal (mac : String) : Nat :=
  (parseHexNat? ((strSplitOnChar ':' mac).headD "")).getD 0

/-- `MACVendorChecker.detect_anomalies`: unknown-OUI, broadcast and
locally-administered heuristics with the source's weights.  The
appends and `+=`s are laid out as one concatenation and one sum over
the same guards in the same order. -/
def vendor_detect_anomalies (oui_db : String → Option String)
    (src_mac dst_mac : String) : VendorAnomalyResult :=
  let src_vendor := lookup_vendor oui_db src_mac
  let dst_vendor := lookup_vendor oui_db dst_mac
  let first_octet := firstOctetVal src_mac
  let anomalies :=
    (if src_vendor = none then
        ["Unknown source MAC vendor (OUI: " ++ get_oui src_mac ++ ")"] else [])
    ++ (if dst_vendor = none then
        ["Unknown destination MAC vendor (OUI: " ++ get_oui dst_mac ++ ")"] else [])
    ++ (if src_mac.take 5 = "FF:FF" ∨ src_mac.take 5 = "01:00" then
        ["Source MAC is broadcast/multicast (spoofing indicator)"] else [])
    ++ (if first_octet &&& 2 ≠ 0 then
        ["Source MAC is locally administered (potential spoofing)"] else [])
  let confidence : ℚ :=
    (if src_vendor = none then (3/10 : ℚ) else 0)
    + (if dst_vendor = none then (1/10 : ℚ) else 0)
    + (if src_mac.take 5 = "FF:FF" ∨ src_mac.take 5 = "01:00" then (2/5 : ℚ) else 0)
    + (if first_octet &&& 2 ≠ 0 then (1/5 : ℚ) else 0)
  { has_anomaly := !anomalies.isEmpty
    anomalies := anomalies
    src_vendor := src_vendor
    dst_vendor := dst_vendor
    confidence := min confidence 1 }

/-- An alert as raised through `AlertSystem.alert` (module, reason, and
the optional source addresses; the `details` dict is appended to the
stored reason as free text and carried separately here). -/
structure AlertMsg where
  module : String
  reason : String
  src_ip : Option String
  src_mac : Option String
deriving DecidableEq

/-- `core/packet_sniffer.py:_handle_pkt`: analyze, detect ARP and
vendor anomalies, then run the DFA check and emit at most one alert
(DFA first, then ARP anomalies over severity 0.5, then vendor
anomalies over confidence 0.4, then the ANN prediction).  The OUI
table and the ANN classifier output are parameters. -/
def handle_pkt (oui_db : String → Option String) (annPredict : ArpFrame → Nat × ℚ)
    (dfa : DFAFilter) (an : ARPAnalyzer) (pkt : ArpFrame) (now : ℚ) :
    List AlertMsg × DFAFilter × ARPAnalyzer :=
  let pr := an.analyze_packet pkt.hwsrc pkt.hwdst pkt.psrc pkt.pdst pkt.op now
  let packet_info := pr.1
  let an1 := pr.2
  let arp_anomalies := an1.detect_anomalies packet_info
  let vendor_anomalies := vendor_detect_anomalies oui_db pkt.hwsrc pkt.hwdst
  let dr := dfa.check pkt now
  let dfa1 := dr.2
  let v := dr.1
  if v.1 then
    let ip : Option String :=
      match v.2.2 with
      | CheckDetails.conflict ip _ _ => some ip
      | _ => none
    let mac : Option String :=
      match v.2.2 with
      | CheckDetails.conflict _ _ new_mac => some new_mac
      | CheckDetails.flood mac _ => some mac
      | _ => none
    ([{ module := "DFA", reason := v.2.1, src_ip := ip, src_mac := mac }], dfa1, an1)
  else if arp_anomalies.has_anomaly ∧ 1/2 < arp_anomalies.severity then
    ([{ module := "ARP_ANOMALY",
        reason := "ARP anomaly: " ++ String.intercalate ", " arp_anomalies.anomalies,
        src_ip := some pkt.psrc, src_mac := some pkt.hwsrc }], dfa1, an1)
  else if vendor_anomalies.has_anomaly ∧ 2/5 < vendor_anomalies.confidence then
    ([{ module := "VENDOR_ANOMALY",
        reason := "MAC vendor anomaly: "
          ++ String.intercalate ", " vendor_anomalies.anomalies,
        src_ip := some pkt.psrc, src_mac := some pkt.hwsrc }], dfa1, an1)
  else if (annPredict pkt).1 = 1 then
    ([{ module := "ANN",
        reason := "Model predicted spoof (prob=" ++ toString (annPredict pkt).2 ++ ")",
        src_ip := some pkt.psrc, src_mac := some pkt.hwsrc }], dfa1, an1)
  else ([], dfa1, an1)

lemma gratCheck_fst_false (s : DFAFilter) (pkt : ArpFrame) (now : ℚ)
    (h : ¬ s.grat_threshold < (s.prunedDeque pkt.hwsrc now).length) :
    (s.gratCheck pkt now).1 = (false, "ok", CheckDetails.empty) := by
  unfold DFAFilter.gratCheck
  rw [if_neg h]

lemma analyze_packet_history (a : ARPAnalyzer) (src_mac dst_mac src_ip dst_ip : String)
    (opcode : Nat) (now : ℚ) :
    (a.analyze_packet src_mac dst_mac src_ip dst_ip opcode now).2.packet_history src_ip
      = dequeAppend a.max_history (a.packet_history src_ip)
          (a.analyze_packet src_mac dst_mac src_ip dst_ip opcode now).1 := by
  rw [analyze_packet_fst]
  unfold ARPAnalyzer.analyze_packet
  dsimp only
  split_ifs with h1 h2
  · simp
  · rcases h : a.pending_requests (dst_ip, src_ip) with _ | t <;> simp [h]
  · simp

/-- The single unsolicited ARP reply of the spec's Scenario C (scapy
defaults `hwdst` to `00:00:00:00:00:00`). -/
def scenarioC_pkt : ArpFrame :=
  ⟨"10.0.0.5", "00:11:22:33:44:55", "10.0.0.6", "00:00:00:00:00:00", 2⟩

/-- The analyzer step of Scenario C on a fresh analyzer. -/
def scenarioC_analyze : ARPPacketInfo × ARPAnalyzer :=
  (ARPAnalyzer.init 1000 60).analyze_packet
    "00:11:22:33:44:55" "00:00:00:00:00:00" "10.0.0.5" "10.0.0.6" 2 0

/-- The anomaly result of Scenario C. -/
def scenarioC_detect : AnomalyResult :=
  scenarioC_analyze.2.detect_anomalies scenarioC_analyze.1

lemma scenarioC_hist :
    scenarioC_analyze.2.packet_history "10.0.0.5" = [scenarioC_analyze.1] := by
  show (ARPAnalyzer.analyze_packet _ _ _ _ _ _ _).2.packet_history _ = _
  rw [analyze_packet_history]
  rfl

lemma scenarioC_tf :
    scenarioC_analyze.2.get_timing_features "10.0.0.5" = TimingFeatures.zeros := by
  unfold ARPAnalyzer.get_timing_features
  rw [scenarioC_hist]
  simp

lemma scenarioC_detect_eq :
    scenarioC_detect.anomalies = ["Unsolicited ARP reply (no matching request)"]
    ∧ scenarioC_detect.severity = 1/2 := by
  have hgrat : scenarioC_analyze.1.is_gratuitous = false := by decide
  have hprobe : scenarioC_analyze.1.is_probe = false := by decide
  have hinter : scenarioC_analyze.1.inter_arrival_time = 0 := rfl
  have hsrc : scenarioC_analyze.1.src_ip = "10.0.0.5" := rfl
  have hdst : scenarioC_analyze.1.dst_ip = "10.0.0.6" := rfl
  have hop : scenarioC_analyze.1.opcode = 2 := rfl
  have hpend : scenarioC_analyze.2.pending_requests ("10.0.0.6", "10.0.0.5") = none :=
    analyze_reply_clears_pending _ _ _ _ _ _
  unfold scenarioC_detect ARPAnalyzer.detect_anomalies
  rw [hgrat, hprobe, hinter, hsrc, hdst, hop, scenarioC_tf]
  constructor
  · norm_num [hpend, TimingFeatures.zeros]
  · norm_num [hpend, TimingFeatures.zeros, min_def]

lemma scenarioC_dfa :
    ((DFAFilter.init 5 5).check scenarioC_pkt 0).1 = (false, "ok", CheckDetails.empty) := by
  rw [check_of_none _ _ _ rfl]
  apply gratCheck_fst_false
  norm_num [DFAFilter.prunedDeque, DFAFilter.bindIp, DFAFilter.init, List.dropWhile_cons,
    scenarioC_pkt]

lemma scenarioC_unmatched :
    scenarioC_analyze.2.stats.unmatched_replies = 1 := by
  show (ARPAnalyzer.analyze_packet _ _ _ _ _ _ _).2.stats.unmatched_replies = 1
  rw [analyze_reply_unmatched_increment _ _ _ _ _ _ rfl]
  rfl

/-- C4 (amended): feeding the pipeline the single unsolicited ARP reply
of Scenario C increments the analyzer's unmatched-reply counter by 1
and records the "Unsolicited ARP reply" anomaly with severity exactly
0.5, but no ARP_ANOMALY alert is emitted — the pipeline's threshold
requires severity strictly greater than 0.5 — whatever the OUI table
and the classifier return. -/
theorem unsolicited_reply_pipeline_amended (oui_db : String → Option String)
    (annPredict : ArpFrame → Nat × ℚ) :
    ((handle_pkt oui_db annPredict (DFAFilter.init 5 5) (ARPAnalyzer.init 1000 60)
        scenarioC_pkt 0).1.all (fun al => al.module != "ARP_ANOMALY") = true)
    ∧ (handle_pkt oui_db annPredict (DFAFilter.init 5 5) (ARPAnalyzer.init 1000 60)
        scenarioC_pkt 0).2.2.stats.unmatched_replies = 1
    ∧ scenarioC_detect.anomalies = ["Unsolicited ARP reply (no matching request)"]
    ∧ scenarioC_detect.severity = 1/2 := by
  have hdetect := scenarioC_detect_eq
  have hsevlt : ¬(1/2 < scenarioC_detect.severity) := by
    rw [hdetect.2]
    norm_num
  have hun : ((ARPAnalyzer.init 1000 60).analyze_packet scenarioC_pkt.hwsrc
      scenarioC_pkt.hwdst scenarioC_pkt.psrc scenarioC_pkt.pdst scenarioC_pkt.op
      0).2.stats.unmatched_replies = 1 := scenarioC_unmatched
  unfold handle_pkt
  rw [show (DFAFilter.init 5 5).check scenarioC_pkt 0
      = (((DFAFilter.init 5 5).check scenarioC_pkt 0).1,
         ((DFAFilter.init 5 5).check scenarioC_pkt 0).2) from rfl]
  rw [scenarioC_dfa]
  refine ⟨?_, ?_, hdetect⟩ <;>
  · simp only [show ((false, "ok", CheckDetails.empty) : Bool × String × CheckDetails).1
        = false from rfl, if_neg (Bool.false_ne_true)]
    rw [if_neg (fun h => hsevlt h.2)]
    split_ifs <;>
      simp [hun, List.all_cons, bne_iff_ne,
        show ("VENDOR_ANOMALY" : String) ≠ "ARP_ANOMALY" from by decide,
        show ("ANN" : String) ≠ "ARP_ANOMALY" from by decide]

/-- Counterexample for C4 as stated: with the OUI lookups that the
source's 213-entry table gives for the two MACs of Scenario C (both
unknown) and a non-flagging classifier, the pipeline emits NO alert at
all for the unsolicited reply — the "Unsolicited ARP reply" anomaly
contributes exactly 0.5 and the ARP_ANOMALY branch requires severity
strictly above 0.5 — while the unmatched-reply counter still
increments. -/
theorem unsolicited_reply_no_alert_counterexample :
    (handle_pkt (fun _ => none) (fun _ => (0, 0)) (DFAFilter.init 5 5)
        (ARPAnalyzer.init 1000 60) scenarioC_pkt 0).1 = []
    ∧ (handle_pkt (fun _ => none) (fun _ => (0, 0)) (DFAFilter.init 5 5)
        (ARPAnalyzer.init 1000 60) scenarioC_pkt 0).2.2.stats.unmatched_replies = 1 := by
  have hdetect := scenarioC_detect_eq
  have hsevlt : ¬(1/2 < scenarioC_detect.severity) := by
    rw [hdetect.2]
    norm_num
  have hun : ((ARPAnalyzer.init 1000 60).analyze_packet scenarioC_pkt.hwsrc
      scenarioC_pkt.hwdst scenarioC_pkt.psrc scenarioC_pkt.pdst scenarioC_pkt.op
      0).2.stats.unmatched_replies = 1 := scenarioC_unmatched
  have hconf : (vendor_detect_anomalies (fun _ => none)
      scenarioC_pkt.hwsrc scenarioC_pkt.hwdst).confidence = 2/5 := by
    show (vendor_detect_anomalies (fun _ => none)
      "00:11:22:33:44:55" "00:00:00:00:00:00").confidence = 2/5
    unfold vendor_detect_anomalies
    rw [show lookup_vendor (fun _ => none) "00:11:22:33:44:55" = none from by decide,
      show lookup_vendor (fun _ => none) "00:00:00:00:00:00" = none from by decide]
    norm_num [min_def,
      show ¬(("00:11:22:33:44:55" : String).take 5 = "FF:FF"
        ∨ ("00:11:22:33:44:55" : String).take 5 = "01:00") from by decide,
      show firstOctetVal "00:11:22:33:44:55" &&& 2 = 0 from by decide]
  unfold handle_pkt
  rw [show (DFAFilter.init 5 5).check scenarioC_pkt 0
      = (((DFAFilter.init 5 5).check scenarioC_pkt 0).1,
         ((DFAFilter.init 5 5).check scenarioC_pkt 0).2) from rfl]
  rw [scenarioC_dfa]
  simp only [show ((false, "ok", CheckDetails.empty) : Bool × String × CheckDetails).1
      = false from rfl, if_neg (Bool.false_ne_true)]
  rw [if_neg (fun h => hsevlt h.2)]
  rw [if_neg (fun h => absurd (hconf ▸ h.2) (by norm_num))]
  rw [if_neg (by norm_num : ¬((0 : Nat), (0 : ℚ)).1 = 1)]
  exact ⟨rfl, hun⟩

/-- A WebSocket client as `core/websocket_manager.py` sees it: an id,
whether `send_text` raises for it, and the text frames delivered to it
so far. -/
structure WSConn where
  cid : Nat
  failing : Bool
  received : List String
deriving DecidableEq

/-- `ConnectionManager`: just the `active_connections` list. -/
structure ConnectionManager where
  active_connections : List WSConn
deriving DecidableEq

/-- `ConnectionManager.broadcast`: iterate over the connections in
order, awaiting `send_text` on each; collect the connections whose
send raised and remove them afterwards.  There is no queue, no bound
and no drop counter in the source. -/
def ConnectionManager.broadcast (m : ConnectionManager) (message : String) :
    ConnectionManager :=
  if m.active_connections.isEmpty then m
  else
    { active_connections :=
        (m.active_connections.map (fun c =>
          if c.failing then c
          else { c with received := c.received ++ [message] })).filter
          (fun c => !c.failing) }

/-- A sequence of `broadcast` calls, one per emitted alert. -/
def ConnectionManager.broadcastAll (m : ConnectionManager) (msgs : List String) :
    ConnectionManager :=
  msgs.foldl ConnectionManager.broadcast m

lemma broadcast_list (msg : String) (l : List WSConn) :
    ((l.map (fun c => if c.failing then c
        else { c with received := c.received ++ [msg] })).filter
      (fun c => !c.failing)).map (fun c => c.received)
    = (l.filter (fun c => !c.failing)).map (fun c => c.received ++ [msg]) := by
  induction l with
  | nil => rfl
  | cons a l ih =>
    by_cases hf : a.failing <;> simp [hf, ih]

/-- C7 (amended): `broadcast` synchronously delivers each event to
every non-failing subscriber, appending it to that subscriber's
received stream (per-subscriber FIFO, no bound, nothing ever dropped),
and removes subscribers whose send raised.  There is no per-subscriber
queue and no drop counter; a slow subscriber delays the producer and
all later subscribers in the iteration rather than losing events. -/
theorem broadcast_delivery_amended (m : ConnectionManager) (message : String) :
    (m.broadcast message).active_connections.map (fun c => c.received)
      = (m.active_connections.filter (fun c => !c.failing)).map
          (fun c => c.received ++ [message]) := by
  unfold ConnectionManager.broadcast
  by_cases h : m.active_connections.isEmpty
  · rw [if_pos h]
    rw [List.isEmpty_iff] at h
    rw [h]
    rfl
  · rw [if_neg h]
    exact broadcast_list message m.active_connections

/-- A single healthy subscriber. -/
def cm0 : ConnectionManager := ⟨[⟨0, false, []⟩]⟩

set_option maxRecDepth 4000 in
/-- Counterexample for C7 as stated: after 65 broadcasts the lone
subscriber has received all 65 events in order — more than the claimed
64-event bound, with no oldest-drop and no drop counter anywhere in
the state. -/
theorem broadcast_unbounded_counterexample :
    (cm0.broadcastAll ((List.range 65).map (fun i => toString i))).active_connections
      = [⟨0, false, (List.range 65).map (fun i => toString i)⟩] := by
  decide

/-- `queue.Queue(maxsize=n)`: `put_nowait` raises `queue.Full` (here
`none`) when a positive maxsize is reached. -/
structure PyQueue (α : Type) where
  maxsize : Nat
  items : List α
deriving DecidableEq

def PyQueue.put_nowait {α : Type} (q : PyQueue α) (x : α) : Option (PyQueue α) :=
  if 0 < q.maxsize ∧ q.maxsize ≤ q.items.length then none
  else some { q with items := q.items ++ [x] }

/-- `core/multi_interface.py:WorkerStats` (the fields the balancer
reads; `load` is `float(packets_processed)`, whose ordering coincides
with the `Nat` ordering used here). -/
structure WorkerStats where
  worker_id : Nat
  packets_processed : Nat
  processing_time : ℚ
  errors : Nat
  interfaces : List String
  is_active : Bool
deriving DecidableEq

/-- `core/multi_interface.py:InterfaceStats`. -/
structure InterfaceStats where
  interface_name : String
  packets_captured : Nat
  packets_processed : Nat
  packets_dropped : Nat
  bytes_captured : Nat
  errors : Nat
  start_time : ℚ
  last_packet_time : ℚ
  worker_id : Option Nat
  is_active : Bool
deriving DecidableEq

/-- `InterfaceManager` reduced to its per-interface stats dict. -/
structure InterfaceManager where
  stats : String → Option InterfaceStats

/-- `InterfaceManager.update_stats` (no-op for unknown interfaces). -/
def InterfaceManager.update_stats (im : InterfaceManager) (iface : String)
    (packets bytes_count dropped errors : Nat) (now : ℚ) : InterfaceManager :=
  match im.stats iface with
  | none => im
  | some st =>
      { stats := fun i =>
          if i = iface then
            some { st with
              packets_captured := st.packets_captured + packets
              bytes_captured := st.bytes_captured + bytes_count
              packets_dropped := st.packets_dropped + dropped
              errors := st.errors + errors
              last_packet_time := if 0 < packets then now else st.last_packet_time }
          else im.stats i }

/-- `LoadBalancer._get_least_loaded_worker`: scan `enumerate(stats)`
keeping the strictly smallest active load; the `float('inf')` start is
`none`, and ties keep the earlier (lowest) id. -/
def leastLoadedWorker (stats : List WorkerStats) : Nat :=
  ((stats.enum).foldl (fun acc p =>
      match acc with
      | (none, wid) =>
          if p.2.is_active then (some p.2.packets_processed, p.1) else (none, wid)
      | (some m, wid) =>
          if p.2.is_active ∧ p.2.packets_processed < m then
            (some p.2.packets_processed, p.1)
          else (some m, wid))
    ((none : Option Nat), 0)).2

def workerStatsDefault : WorkerStats := ⟨0, 0, 0, 0, [], true⟩

/-- `core/multi_interface.py:LoadBalancer` (queues are
`queue.Queue(maxsize=1000)` of `(packet, interface_name)` pairs). -/
structure LoadBalancer where
  num_workers : Nat
  strategy : String
  worker_queues : List (PyQueue (ArpFrame × String))
  worker_stats : List WorkerStats
  rr_counter : Nat
  interface_affinity : String → Option Nat

/-- `LoadBalancer.__init__`. -/
def LoadBalancer.init (num_workers : Nat) (strategy : String) : LoadBalancer :=
  { num_workers := num_workers
    strategy := strategy
    worker_queues := List.replicate num_workers ⟨1000, []⟩
    worker_stats := (List.range num_workers).map (fun i => ⟨i, 0, 0, 0, [], true⟩)
    rr_counter := 0
    interface_affinity := fun _ => none }

/-- The strategy dispatch at the head of `LoadBalancer.assign_packet`
(round-robin advances the counter; affinity pins a new interface to
the least-loaded worker and records it in that worker's stats). -/
def LoadBalancer.selectWorker (lb : LoadBalancer) (iface : String) :
    Nat × LoadBalancer :=
  if lb.strategy = "round-robin" then
    (lb.rr_counter % lb.num_workers, { lb with rr_counter := lb.rr_counter + 1 })
  else if lb.strategy = "least-loaded" then
    (leastLoadedWorker lb.worker_stats, lb)
  else if lb.strategy = "affinity" then
    match lb.interface_affinity iface with
    | some wid => (wid, lb)
    | none =>
        let wid := leastLoadedWorker lb.worker_stats
        (wid,
         { lb with
            interface_affinity := fun i =>
              if i = iface then some wid else lb.interface_affinity i
            worker_stats := lb.worker_stats.set wid
              { (lb.worker_stats.getD wid workerStatsDefault) with
                  interfaces :=
                    (lb.worker_stats.getD wid workerStatsDefault).interfaces ++ [iface] } })
  else (0, lb)

/-- `LoadBalancer.assign_packet`: choose a worker, `put_nowait` the
frame; `queue.Full` is caught, a warning is logged, and `False` is
returned — nothing is raised upstream and no counter is touched. -/
def LoadBalancer.assign_packet (lb : LoadBalancer) (pkt : ArpFrame) (iface : String) :
    Bool × LoadBalancer :=
  let sel := lb.selectWorker iface
  match (sel.2.worker_queues.getD sel.1 ⟨0, []⟩).put_nowait (pkt, iface) with
  | some q' => (true, { sel.2 with worker_queues := sel.2.worker_queues.set sel.1 q' })
  | none => (false, sel.2)

/-- The per-interface capture callback built in
`MultiInterfaceSniffer.start`: assign the frame (result discarded) and
count the capture. -/
def sniffHandler (lb : LoadBalancer) (im : InterfaceManager) (pkt : ArpFrame)
    (iface : String) (now : ℚ) : Bool × LoadBalancer × InterfaceManager :=
  let r := lb.assign_packet pkt iface
  (r.1, r.2, im.update_stats iface 1 0 0 0 now)

lemma selectWorker_queues (lb : LoadBalancer) (iface : String) :
    (lb.selectWorker iface).2.worker_queues = lb.worker_queues := by
  unfold LoadBalancer.selectWorker
  split_ifs <;> first
    | rfl
    | (rcases h : lb.interface_affinity iface with _ | wid <;> simp [h])

lemma update_stats_dropped (im : InterfaceManager) (iface : String)
    (packets bytes_count errors : Nat) (now : ℚ) (j : String) :
    ((im.update_stats iface packets bytes_count 0 errors now).stats j).map
        (fun s => s.packets_dropped)
      = (im.stats j).map (fun s => s.packets_dropped) := by
  unfold InterfaceManager.update_stats
  rcases h : im.stats iface with _ | st
  · rfl
  · by_cases hj : j = iface <;> simp [hj, h]

/-- C8 (amended): when the chosen worker lane's queue is full, the
frame is dropped silently — `assign_packet` catches `queue.Full` and
returns `False`, which the capture callback discards — the worker
queues are left unchanged, and NO drop counter is incremented: the
`packets_dropped` field of every interface is unchanged (the source
never calls `update_stats` with a nonzero `dropped`). -/
theorem assign_full_queue_amended (lb : LoadBalancer) (im : InterfaceManager)
    (pkt : ArpFrame) (iface : String) (now : ℚ)
    (hfull : 0 < ((lb.selectWorker iface).2.worker_queues.getD
        (lb.selectWorker iface).1 ⟨0, []⟩).maxsize
      ∧ ((lb.selectWorker iface).2.worker_queues.getD
          (lb.selectWorker iface).1 ⟨0, []⟩).maxsize
        ≤ ((lb.selectWorker iface).2.worker_queues.getD
            (lb.selectWorker iface).1 ⟨0, []⟩).items.length) :
    (lb.assign_packet pkt iface).1 = false
    ∧ (lb.assign_packet pkt iface).2.worker_queues = lb.worker_queues
    ∧ ∀ j, (((sniffHandler lb im pkt iface now).2.2.stats j).map
          (fun s => s.packets_dropped))
        = (im.stats j).map (fun s => s.packets_dropped) := by
  have hput : ((lb.selectWorker iface).2.worker_queues.getD
      (lb.selectWorker iface).1 ⟨0, []⟩).put_nowait (pkt, iface) = none := by
    unfold PyQueue.put_nowait
    rw [if_pos hfull]
  refine ⟨?_, ?_, ?_⟩
  · simp only [LoadBalancer.assign_packet]
    rw [hput]
  · simp only [LoadBalancer.assign_packet]
    rw [hput]
    exact selectWorker_queues lb iface
  · intro j
    unfold sniffHandler
    exact update_stats_dropped im iface 1 0 0 now j

/-- A balancer whose single round-robin lane is already full. -/
def lb_full : LoadBalancer :=
  { num_workers := 1
    strategy := "round-robin"
    worker_queues := [⟨1000, List.replicate 1000 (⟨"", "", "", "", 0⟩, "eth0")⟩]
    worker_stats := [⟨0, 0, 0, 0, [], true⟩]
    rr_counter := 0
    interface_affinity := fun _ => none }

/-- A manager tracking eth0 with all counters at zero. -/
def im0 : InterfaceManager :=
  ⟨fun i => if i = "eth0" then some ⟨"eth0", 0, 0, 0, 0, 0, 0, 0, none, true⟩ else none⟩

set_option maxRecDepth 20000 in
/-- Counterexample for C8 as stated ("a drop counter is incremented"):
feeding a frame to a full lane returns `False` silently, leaves the
queue unchanged — and leaves `packets_dropped` at 0 while
`packets_captured` advances, so no drop counter was incremented. -/
theorem assign_full_queue_no_counter_counterexample :
    (sniffHandler lb_full im0 ⟨"10.0.0.1", "aa", "", "", 2⟩ "eth0" 1).1 = false
    ∧ (((sniffHandler lb_full im0 ⟨"10.0.0.1", "aa", "", "", 2⟩ "eth0" 1).2.2.stats
        "eth0").map (fun s => s.packets_dropped)) = some 0
    ∧ (((sniffHandler lb_full im0 ⟨"10.0.0.1", "aa", "", "", 2⟩ "eth0" 1).2.2.stats
        "eth0").map (fun s => s.packets_captured)) = some 1
    ∧ (sniffHandler lb_full im0 ⟨"10.0.0.1", "aa", "", "", 2⟩ "eth0" 1).2.1.worker_queues
        = lb_full.worker_queues := by
  refine ⟨rfl, ?_, ?_, rfl⟩ <;>
    simp [sniffHandler, InterfaceManager.update_stats, im0]

set_option maxRecDepth 20000 in
/-- Witness for C8 (amended): the theorem applied to the concrete full
lane, with the fullness hypothesis discharged by computation. -/
theorem assign_full_queue_amended_witness :
    (lb_full.assign_packet ⟨"10.0.0.1", "aa", "", "", 2⟩ "eth0").1 = false
    ∧ (lb_full.assign_packet ⟨"10.0.0.1", "aa", "", "", 2⟩ "eth0").2.worker_queues
        = lb_full.worker_queues :=
  let h := assign_full_queue_amended lb_full im0 ⟨"10.0.0.1", "aa", "", "", 2⟩ "eth0" 1
    (by decide)
  ⟨h.1, h.2.1⟩

/-- A row of the alerts table as the learner reads it.  The wall
timestamp is reduced to the two components feature extraction reads
(`hour`, `weekday`), `none` when the column is NULL. -/
structure AlertRow where
  id : Nat
  module : String
  reason : String
  src_ip : Option String
  src_mac : Option String
  timestamp : Option (Nat × Nat)
deriving DecidableEq

/-- `str.strip()` (ASCII whitespace; the reasons parsed here are
ASCII). -/
def pyTrim (s : String) : String :=
  String.mk (((s.data.dropWhile Char.isWhitespace).reverse.dropWhile
    Char.isWhitespace).reverse)

/-- `str.rstrip(")")`. -/
def rstripParen (s : String) : String :=
  String.mk ((s.data.reverse.dropWhile (fun c => c = ')')).reverse)

/-- Python's `in` operator on strings (substring containment). -/
def containsSubstr (hay needle : String) : Bool :=
  hay.data.tails.any (fun t => needle.data.isPrefixOf t)

/-- `str.split(sep)` for a non-empty separator: greedy left-to-right
non-overlapping matches. -/
def splitOnStrAux (sep : List Char) (l : List Char) (acc : List Char) :
    List (List Char) :=
  match l with
  | [] => [acc.reverse]
  | c :: rest =>
      if h : sep.isPrefixOf (c :: rest) ∧ sep ≠ [] then
        acc.reverse :: splitOnStrAux sep ((c :: rest).drop sep.length) []
      else
        splitOnStrAux sep rest (c :: acc)
  termination_by l.length
  decreasing_by
    · simp only [List.length_drop, List.length_cons]
      have : 0 < sep.length := List.length_pos.mpr h.2
      omega
    · simp only [List.length_cons]
      omega

def pySplit (s sep : String) : List String :=
  (splitOnStrAux sep.data s.data []).map String.mk

/-- Value of a digit string. -/
def digitsVal (ds : List Char) : Nat :=
  ds.foldl (fun n c => 10 * n + (c.toNat - 48)) 0

/-- The mantissa of a Python float literal: digits with at most one
point, at least one digit overall. -/
def parseUnsignedDecimal? (mant : List Char) : Option ℚ :=
  match splitOnCharList '.' mant with
  | [ipart] =>
      if ipart ≠ [] ∧ ipart.all Char.isDigit then some ((digitsVal ipart : ℚ)) else none
  | [ipart, fpart] =>
      if (ipart ≠ [] ∨ fpart ≠ []) ∧ ipart.all Char.isDigit ∧ fpart.all Char.isDigit then
        some ((digitsVal (ipart ++ fpart) : ℚ) / (10 : ℚ) ^ fpart.length)
      else none
  | _ => none

/-- `float(s)`: optional sign, decimal mantissa, optional exponent.
(`inf`, `nan` and underscore separators, which Python also accepts,
never occur in the confidence strings parsed here and map to `none`.) -/
def pyFloat? (s : String) : Option ℚ :=
  let cs := (pyTrim s).data
  let signAndRest : ℚ × List Char :=
    match cs with
    | '+' :: t => (1, t)
    | '-' :: t => (-1, t)
    | _ => (1, cs)
  let sign := signAndRest.1
  let rest := signAndRest.2
  match splitOnCharList 'e' (rest.map (fun c => if c = 'E' then 'e' else c)) with
  | [mant] => (parseUnsignedDecimal? mant).map (fun v => sign * v)
  | [mant, ex] =>
      match parseUnsignedDecimal? mant with
      | none => none
      | some v =>
          let esignAndRest : Bool × List Char :=
            match ex with
            | '+' :: t => (true, t)
            | '-' :: t => (false, t)
            | _ => (true, ex)
          if esignAndRest.2 ≠ [] ∧ esignAndRest.2.all Char.isDigit then
            let e := digitsVal esignAndRest.2
            some (sign * (if esignAndRest.1 then v * 10 ^ e else v / 10 ^ e))
          else none
  | _ => none

/-- `ContinuousLearner._auto_label_alert`: DFA alerts are labelled 1;
ANN alerts are labelled from a confidence parsed out of the reason
string (label 1 at ≥ 0.95, label 0 at ≤ 0.30, skip strictly between);
a reason with no `confidence:` marker, or one whose `float()` raises
(the bare `except: pass`), falls through to the default `return 1`;
all other modules are skipped. -/
def autoLabelAlert (a : AlertRow) : Option Nat :=
  if a.module = "DFA" then some 1
  else if a.module = "ANN" then
    (if containsSubstr a.reason "confidence:" then
      match pyFloat? (rstripParen (pyTrim ((pySplit a.reason "confidence:").getLastD ""))) with
      | some confidence =>
          if 95/100 ≤ confidence then some 1
          else if confidence ≤ 30/100 then some 0
          else none
      | none => some 1
    else some 1)
  else none

/-- The confidence value the auto-labeler recovers from a reason
string, when one is present and parses. -/
def parsedConfidence (reason : String) : Option ℚ :=
  if containsSubstr reason "confidence:" then
    pyFloat? (rstripParen (pyTrim ((pySplit reason "confidence:").getLastD "")))
  else none

/-- C3 (amended): the auto-labeler returns 1 for DFA; for ANN it
returns 1 when the parsed confidence is ≥ 0.95, 0 when ≤ 0.30, and
skips only when a parsed confidence lies strictly between — an ANN
alert with NO parseable confidence is labelled 1 (the source's
default "trust ANN"), not skipped; every other module is skipped. -/
theorem auto_label_characterization (a : AlertRow) :
    autoLabelAlert a
      = if a.module = "DFA" then some 1
        else if a.module = "ANN" then
          match parsedConfidence a.reason with
          | some c => if 95/100 ≤ c then some 1 else if c ≤ 30/100 then some 0 else none
          | none => some 1
        else none := by
  unfold autoLabelAlert parsedConfidence
  cases hc : containsSubstr a.reason "confidence:" <;> simp [hc]

/-- Counterexample for C3 as stated: an ANN alert whose reason carries
no confidence value is labelled 1 (attack) by the code, not skipped as
the claim says. -/
theorem auto_label_missing_confidence_counterexample :
    autoLabelAlert ⟨5, "ANN", "Model predicted spoof (prob=0.8421)", none, none, none⟩
      = some 1
    ∧ autoLabelAlert ⟨5, "ANN", "Model predicted spoof (prob=0.8421)", none, none, none⟩
      ≠ none := by
  refine ⟨?_, ?_⟩ <;> decide

/-- The file system as the learner touches it: path → byte content
(torch/json serializations abstracted as opaque byte lists). -/
structure Disk where
  files : String → Option (List Nat)

def Disk.write (d : Disk) (path : String) (content : List Nat) : Disk :=
  ⟨fun p => if p = path then some content else d.files p⟩

/-- `shutil.copy2(src, dst)` guarded by `src.exists()`. -/
def Disk.copy2 (d : Disk) (src dst : String) : Disk :=
  match d.files src with
  | some b => d.write dst b
  | none => d

/-- `ann_classifier.py:TabularNet`: `net` is
`Sequential(Linear, BatchNorm1d, ReLU, Dropout` per hidden width,
`final Linear)`; the tensor contents are opaque here. -/
structure TabularNet where
  input_dim : Nat
  hidden_dims : List Nat
  dropout : ℚ
  params : List Nat

/-- `self.model.net[0].out_features`: the first `Linear`'s output
width — an `int` (the first hidden width, or 1 when `hidden_dims` is
empty and `net[0]` is the final layer). -/
def TabularNet.net0_out_features (m : TabularNet) : Nat := m.hidden_dims.headD 1

/-- The slice of `ANNDetector` state that `save_checkpoint` and the
learner read. -/
structure ANNDetector where
  model : TabularNet
  numeric_cols : List String
  scaler : List (ℚ × ℚ)
  input_size : Nat

/-- `list(x)` iterates its argument; a Python `int` is not iterable,
so `list(n)` raises `TypeError` for every `n`. -/
def pyListOfInt (n : Nat) : Except String (List Nat) :=
  Except.error "TypeError: 'int' object is not iterable"

/-- The bytes `torch.save` would write for the checkpoint dict
(abstracted; unreachable, see `save_checkpoint`). -/
def encodeCheckpoint (d : ANNDetector) (hidden_dims : List Nat) : List Nat :=
  d.model.params ++ hidden_dims ++ [d.numeric_cols.length]

/-- `ANNDetector.save_checkpoint`: the checkpoint dict sets
`"hidden_dims": list(self.model.net[0].out_features)` whenever the
model has a `net` — which `TabularNet` always does — so the call
raises `TypeError` before `torch.save` runs; and the write path, were
it reached, is a direct `torch.save(checkpoint, str(save_path))` with
no temporary file and no rename. -/
def ANNDetector.save_checkpoint (d : ANNDetector) (path : String) (disk : Disk) :
    Except String Disk := do
  let hd ← pyListOfInt d.model.net0_out_features
  return (disk.write path (encodeCheckpoint d hd))

/-- C2: the claim says every `save_checkpoint` on a loaded model
persists the state atomically (write-temp-then-rename); in the code
the call instead raises `TypeError` for every detector and path —
`list(int)` is never valid — so nothing is ever persisted, and the
write that would follow is a plain in-place `torch.save`, not an
atomic temp-then-rename. -/
theorem save_checkpoint_always_raises (d : ANNDetector) (path : String) (disk : Disk) :
    d.save_checkpoint path disk
      = Except.error "TypeError: 'int' object is not iterable" := rfl

/-- The metrics dict returned by `ANNDetector.incremental_update`
(`none` models the empty dict `{}` that `_incremental_train` returns
when training raises or no model is loaded). -/
structure Metrics where
  loss : ℚ
  accuracy : ℚ
  samples : Nat
deriving DecidableEq

/-- `ContinuousLearner._validate_model`. -/
def validate_model : Option Metrics → Bool
  | none => false
  | some m =>
      if m.accuracy < 70 then false
      else if 2 < m.loss then false
      else true

/-- `int(x)` on a decimal string. -/
def pyInt? (s : String) : Option Int :=
  let cs := (pyTrim s).data
  let signAndRest : Bool × List Char :=
    match cs with
    | '+' :: t => (false, t)
    | '-' :: t => (true, t)
    | _ => (false, cs)
  if signAndRest.2 ≠ [] ∧ signAndRest.2.all Char.isDigit then
    some (if signAndRest.1 then -(digitsVal signAndRest.2 : Int)
          else (digitsVal signAndRest.2 : Int))
  else none

/-- `ContinuousLearner._extract_features_from_alert`: IP octets, MAC
bytes (each falling back to zeros when parsing raises), a module flag,
hour-of-day and day-of-week, zero-padded and trimmed to the expected
input size.  In the embedding the outer `except` (which returns
`None`) is unreachable, so extraction is total. -/
def extract_features_from_alert (input_size : Nat) (a : AlertRow) : List ℚ :=
  let ipFeats : List ℚ :=
    match a.src_ip with
    | some ip =>
        match (strSplitOnChar '.' ip).mapM pyInt? with
        | some os => os.map (fun n => (n : ℚ))
        | none => [0, 0, 0, 0]
    | none => [0, 0, 0, 0]
  let macFeats : List ℚ :=
    match a.src_mac with
    | some mac =>
        match (strSplitOnChar ':' mac).mapM parseHexNat? with
        | some bs => bs.map (fun n => (n : ℚ))
        | none => [0, 0, 0, 0, 0, 0]
    | none => [0, 0, 0, 0, 0, 0]
  let moduleFeat : List ℚ := [if a.module = "ANN" then 1 else 0]
  let tsFeats : List ℚ :=
    match a.timestamp with
    | some hw => [(hw.1 : ℚ) / 24, (hw.2 : ℚ) / 7]
    | none => [0, 0]
  let features := ipFeats ++ macFeats ++ moduleFeat ++ tsFeats
  (features ++ List.replicate (input_size - features.length) 0).take input_size

/-- Insertion sort by alert id: the `ORDER BY Alert.id` of the
collection query. -/
def insertById (a : AlertRow) : List AlertRow → List AlertRow
  | [] => [a]
  | b :: t => if a.id ≤ b.id then a :: b :: t else b :: insertById a t

def sortById : List AlertRow → List AlertRow
  | [] => []
  | a :: t => insertById a (sortById t)

/-- One alert of `_collect_training_data`'s loop: extract features,
auto-label, skip unlabelled. -/
def collectStep (input_size : Nat) (acc : List (List ℚ) × List Nat × List Nat)
    (al : AlertRow) : List (List ℚ) × List Nat × List Nat :=
  match autoLabelAlert al with
  | none => acc
  | some lab =>
      (acc.1 ++ [extract_features_from_alert input_size al],
       acc.2.1 ++ [lab], acc.2.2 ++ [al.id])

/-- `ContinuousLearner._collect_training_data`: alerts with id above
`last_processed_id`, in id order, up to `max_history`, labelled. -/
def collect_training_data (input_size last_processed_id max_history : Nat)
    (db : List AlertRow) : List (List ℚ) × List Nat × List Nat :=
  ((sortById (db.filter (fun a => decide (last_processed_id < a.id)))).take
    max_history).foldl (collectStep input_size) ([], [], [])

/-- `max(alert_ids)` (on the nonempty lists reached). -/
def maxListNat (l : List Nat) : Nat := l.foldl max 0

structure TrainRecord where
  timestamp : String
  training_time : ℚ
  num_samples : Nat
  metrics : Option Metrics
deriving DecidableEq

structure VersionRecord where
  timestamp : String
  metrics : Option Metrics
  model_path : String
deriving DecidableEq

/-- The mutable state of a `ContinuousLearner`. -/
structure LearnerState where
  learning_interval : Nat
  min_samples : Nat
  batch_size : Nat
  max_history : Nat
  is_training : Bool
  last_training_time : Option String
  last_processed_id : Nat
  training_history : List TrainRecord
  model_versions : List VersionRecord

def modelPathS : String := "models/ann_model.pt"

def statsPathS : String := "models/continuous_learning_stats.json"

/-- The JSON bytes `_save_state` writes (abstracted). -/
def encodeLearnerState (s : LearnerState) : List Nat :=
  [s.last_processed_id, s.training_history.length, s.model_versions.length]

/-- `ContinuousLearner._perform_training_cycle`.  `train` stands for
`ANNDetector.incremental_update` (gradient descent is outside the
embedding; its returned metrics dict is the oracle's value), `nowIso`
for `datetime.now().isoformat()` and `training_time` for the elapsed
wall time.  The `is_training` flag is set on entry and cleared in the
`finally`, a net no-op on every path.  Steps: collect; early-return on
insufficient data; backup; train; validate, then either
`_save_model_version` (whose inner `save_checkpoint` raises and is
swallowed, leaving disk and version log unchanged) or
`_rollback_model`; then — unconditionally — advance
`last_processed_id` to the max observed id, set `last_training_time`,
record metrics and save state. -/
def perform_training_cycle (det : ANNDetector)
    (train : List (List ℚ) → List Nat → Option Metrics)
    (s : LearnerState) (db : List AlertRow) (disk : Disk)
    (nowIso : String) (training_time : ℚ) (backupPath : String) :
    LearnerState × Disk :=
  let c := collect_training_data det.input_size s.last_processed_id s.max_history db
  let X := c.1
  let y := c.2.1
  let alert_ids := c.2.2
  if X.length < s.min_samples then (s, disk)
  else
    let disk1 := disk.copy2 modelPathS backupPath
    let m := train X y
    let vd : Disk × List VersionRecord :=
      if validate_model m then
        match det.save_checkpoint modelPathS disk1 with
        | Except.ok disk2 => (disk2, s.model_versions ++ [⟨nowIso, m, modelPathS⟩])
        | Except.error _ => (disk1, s.model_versions)
      else
        (disk1.copy2 backupPath modelPathS, s.model_versions)
    let s1 := { s with
        last_processed_id := if alert_ids.isEmpty then s.last_processed_id
                             else maxListNat alert_ids
        last_training_time := some nowIso
        training_history := s.training_history ++ [⟨nowIso, training_time, X.length, m⟩]
        model_versions := vd.2 }
    (s1, vd.1.write statsPathS (encodeLearnerState s1))

lemma collect_fold_len (input_size : Nat) :
    ∀ (l : List AlertRow) (acc : List (List ℚ) × List Nat × List Nat),
      acc.1.length = acc.2.2.length →
      (l.foldl (collectStep input_size) acc).1.length
        = (l.foldl (collectStep input_size) acc).2.2.length := by
  intro l
  induction l with
  | nil => intro acc h; exact h
  | cons a l ih =>
    intro acc h
    rw [List.foldl_cons]
    apply ih
    unfold collectStep
    rcases autoLabelAlert a with _ | lab <;> simp [h]

lemma collect_len_eq (input_size last_processed_id max_history : Nat)
    (db : List AlertRow) :
    (collect_training_data input_size last_processed_id max_history db).1.length
      = (collect_training_data input_size last_processed_id max_history db).2.2.length := by
  unfold collect_training_data
  exact collect_fold_len input_size _ ([], [], []) rfl

lemma Disk.files_write (d : Disk) (path : String) (content : List Nat) (p : String) :
    (d.write path content).files p = if p = path then some content else d.files p := rfl

lemma copy2_roundtrip (disk : Disk) (src bk : String)
    (hbk : disk.files bk = none) :
    ((disk.copy2 src bk).copy2 bk src).files src = disk.files src := by
  unfold Disk.copy2
  rcases hcur : disk.files src with _ | b
  · simp only [hcur, hbk]
  · simp only [hcur]
    simp [Disk.write, hcur]

/-- C1 (amended): for every training cycle whose validation rejects
the candidate (given a fresh backup path), the on-disk classifier
checkpoint ends byte-identical to its pre-cycle content — but
`last_processed_alert_id` is still advanced to the maximum observed
alert id: the advance is unconditional, not gated on commit. -/
theorem learner_reject_cycle_amended (det : ANNDetector)
    (train : List (List ℚ) → List Nat → Option Metrics)
    (s : LearnerState) (db : List AlertRow) (disk : Disk)
    (nowIso : String) (training_time : ℚ) (backupPath : String)
    (hbk : disk.files backupPath = none)
    (hmin : 0 < s.min_samples)
    (hlen : s.min_samples ≤ (collect_training_data det.input_size s.last_processed_id
        s.max_history db).1.length)
    (hrej : validate_model
        (train (collect_training_data det.input_size s.last_processed_id
            s.max_history db).1
          (collect_training_data det.input_size s.last_processed_id
            s.max_history db).2.1) = false) :
    (perform_training_cycle det train s db disk nowIso training_time
        backupPath).2.files modelPathS = disk.files modelPathS
    ∧ (perform_training_cycle det train s db disk nowIso training_time
        backupPath).1.last_processed_id
      = maxListNat (collect_training_data det.input_size s.last_processed_id
          s.max_history db).2.2 := by
  have hids : (collect_training_data det.input_size s.last_processed_id
      s.max_history db).2.2.isEmpty = false := by
    rcases hn : (collect_training_data det.input_size s.last_processed_id
        s.max_history db).2.2 with _ | ⟨x, xs⟩
    · exfalso
      have hl := collect_len_eq det.input_size s.last_processed_id s.max_history db
      rw [hn] at hl
      simp only [List.length_nil] at hl
      omega
    · rfl
  have hXlt : ¬ ((collect_training_data det.input_size s.last_processed_id
      s.max_history db).1.length < s.min_samples) := not_lt.mpr hlen
  have hv' : ¬ (validate_model
      (train (collect_training_data det.input_size s.last_processed_id
          s.max_history db).1
        (collect_training_data det.input_size s.last_processed_id
          s.max_history db).2.1) = true) := by
    rw [hrej]
    simp
  simp only [perform_training_cycle]
  rw [if_neg hXlt, if_neg hv']
  constructor
  · dsimp only
    rw [Disk.files_write, if_neg (show ¬ modelPathS = statsPathS from by decide)]
    exact copy2_roundtrip disk modelPathS backupPath hbk
  · dsimp only
    rw [hids]
    rfl

/-- The single new DFA alert of the rejection scenario. -/
def cex_alert : AlertRow :=
  ⟨7, "DFA", "IP-MAC conflict: 192.168.1.1 previous a now b",
   some "192.168.1.1", some "aa:bb:cc:dd:ee:01", some (12, 3)⟩

/-- A learner that trains on a single new sample. -/
def cex_state : LearnerState :=
  { learning_interval := 3600, min_samples := 1, batch_size := 32,
    max_history := 10000, is_training := false, last_training_time := none,
    last_processed_id := 0, training_history := [], model_versions := [] }

def cex_det : ANNDetector := ⟨⟨78, [512, 256, 128, 64], 35/100, [9]⟩, [], [], 78⟩

/-- A trainer whose incremental update reports accuracy 55 and loss
0.8 — rejected by validation (55 < 70). -/
def cex_train : List (List ℚ) → List Nat → Option Metrics :=
  fun _ _ => some ⟨4/5, 55, 1⟩

def cex_disk : Disk := ⟨fun p => if p = modelPathS then some [1, 2, 3] else none⟩

def cex_backup : String := "models/backups/model_backup_20260101_000000.pt"

/-- Counterexample for C1 as stated: a cycle whose validation rejects
(accuracy 55 < 70, loss 0.8) still advances `last_processed_id` from
its pre-cycle value 0 to the max observed alert id 7. -/
theorem learner_reject_advances_id_counterexample :
    validate_model (cex_train [] []) = false
    ∧ cex_state.last_processed_id = 0
    ∧ (perform_training_cycle cex_det cex_train cex_state [cex_alert] cex_disk
        "2026-01-01T00:00:00" 1 cex_backup).1.last_processed_id = 7 := by
  have hval : validate_model (some ⟨4/5, 55, 1⟩) = false := by
    show (if (55 : ℚ) < 70 then false
          else if (2 : ℚ) < 4/5 then false else true) = false
    rw [if_pos (by norm_num : (55 : ℚ) < 70)]
  refine ⟨hval, rfl, ?_⟩
  have hids : (collect_training_data cex_det.input_size cex_state.last_processed_id
      cex_state.max_history [cex_alert]).2.2 = [7] := by decide
  have hX : ¬ (collect_training_data cex_det.input_size cex_state.last_processed_id
      cex_state.max_history [cex_alert]).1.length < cex_state.min_samples := by decide
  have hv' : ¬ (validate_model
      (cex_train (collect_training_data cex_det.input_size cex_state.last_processed_id
          cex_state.max_history [cex_alert]).1
        (collect_training_data cex_det.input_size cex_state.last_processed_id
          cex_state.max_history [cex_alert]).2.1) = true) := by
    rw [show cex_train (collect_training_data cex_det.input_size
        cex_state.last_processed_id cex_state.max_history [cex_alert]).1
        (collect_training_data cex_det.input_size cex_state.last_processed_id
          cex_state.max_history [cex_alert]).2.1 = some ⟨4/5, 55, 1⟩ from rfl, hval]
    simp
  simp only [perform_training_cycle]
  rw [if_neg hX, if_neg hv']
  dsimp only
  rw [hids]
  rfl

/-- Witness for C1 (amended): the theorem applied to the concrete
rejected cycle, hypotheses discharged by computation. -/
theorem learner_reject_cycle_amended_witness :
    (perform_training_cycle cex_det cex_train cex_state [cex_alert] cex_disk
        "2026-01-01T00:00:00" 1 cex_backup).2.files modelPathS
      = cex_disk.files modelPathS
    ∧ (perform_training_cycle cex_det cex_train cex_state [cex_alert] cex_disk
        "2026-01-01T00:00:00" 1 cex_backup).1.last_processed_id
      = maxListNat (collect_training_data cex_det.input_size
          cex_state.last_processed_id cex_state.max_history [cex_alert]).2.2 :=
  learner_reject_cycle_amended cex_det cex_train cex_state [cex_alert] cex_disk
    "2026-01-01T00:00:00" 1 cex_backup (by decide) (by decide) (by decide)
    (by
      show (if (55 : ℚ) < 70 then false
            else if (2 : ℚ) < 4/5 then false else true) = false
      rw [if_pos (by norm_num : (55 : ℚ) < 70)])

/-! SHA-256 (`hashlib.sha256`), spelled out over `Nat` with explicit
reduction modulo 2^32. -/

def w32 (x : Nat) : Nat := x % 4294967296

def rotr32 (n x : Nat) : Nat := w32 ((x >>> n) ||| (x <<< (32 - n)))

def bsig0 (x : Nat) : Nat := (rotr32 2 x ^^^ rotr32 13 x) ^^^ rotr32 22 x

def bsig1 (x : Nat) : Nat := (rotr32 6 x ^^^ rotr32 11 x) ^^^ rotr32 25 x

def ssig0 (x : Nat) : Nat := (rotr32 7 x ^^^ rotr32 18 x) ^^^ (x >>> 3)

def ssig1 (x : Nat) : Nat := (rotr32 17 x ^^^ rotr32 19 x) ^^^ (x >>> 10)

def chFn (e f g : Nat) : Nat := (e &&& f) ^^^ ((4294967295 ^^^ e) &&& g)

def majFn (a b c : Nat) : Nat := ((a &&& b) ^^^ (a &&& c)) ^^^ (b &&& c)

def sha256K : List Nat :=
  [1116352408, 1899447441, 3049323471, 3921009573,
   961987163, 1508970993, 2453635748, 2870763221,
   3624381080, 310598401, 607225278, 1426881987,
   1925078388, 2162078206, 2614888103, 3248222580,
   3835390401, 4022224774, 264347078, 604807628,
   770255983, 1249150122, 1555081692, 1996064986,
   2554220882, 2821834349, 2952996808, 3210313671,
   3336571891, 3584528711, 113926993, 338241895,
   666307205, 773529912, 1294757372, 1396182291,
   1695183700, 1986661051, 2177026350, 2456956037,
   2730485921, 2820302411, 3259730800, 3345764771,
   3516065817, 3600352804, 4094571909, 275423344,
   430227734, 506948616, 659060556, 883997877,
   958139571, 1322822218, 1537002063, 1747873779,
   1955562222, 2024104815, 2227730452, 2361852424,
   2428436474, 2756734187, 3204031479, 3329325298]

def sha256H0 : List Nat :=
  [1779033703, 3144134277, 1013904242, 2773480762,
   1359893119, 2600822924, 528734635, 1541459225]

/-- `k` big-endian bytes of `n`. -/
def beBytes : Nat → Nat → List Nat
  | 0, _ => []
  | k + 1, n => beBytes k (n >>> 8) ++ [n % 256]

def sha256pad (msg : List Nat) : List Nat :=
  let L := msg.length
  let padLen := (64 - ((L + 9) % 64)) % 64
  msg ++ [128] ++ List.replicate padLen 0 ++ beBytes 8 (8 * L)

/-- 64-byte blocks (fuel-structured so that it evaluates; the fuel is
the list length, enough for every input). -/
def chunks64Aux : Nat → List Nat → List (List Nat)
  | 0, _ => []
  | _ + 1, [] => []
  | fuel + 1, l@(_ :: _) => l.take 64 :: chunks64Aux fuel (l.drop 64)

def chunks64 (l : List Nat) : List (List Nat) := chunks64Aux l.length l

/-- Big-endian 32-bit words of a block. -/
def be32of : List Nat → List Nat
  | b0 :: b1 :: b2 :: b3 :: rest =>
      (((b0 * 256 + b1) * 256 + b2) * 256 + b3) :: be32of rest
  | _ => []

def extendSchedule : Nat → List Nat → List Nat
  | 0, ws => ws
  | k + 1, ws =>
      let n := ws.length
      let wi := w32 (ws.getD (n - 16) 0 + ssig0 (ws.getD (n - 15) 0)
        + ws.getD (n - 7) 0 + ssig1 (ws.getD (n - 2) 0))
      extendSchedule k (ws ++ [wi])

def compressStep (st : List Nat) (kw : Nat × Nat) : List Nat :=
  match st with
  | [a, b, c, d, e, f, g, h] =>
      let t1 := w32 (h + bsig1 e + chFn e f g + kw.1 + kw.2)
      let t2 := w32 (bsig0 a + majFn a b c)
      [w32 (t1 + t2), a, b, c, w32 (d + t1), e, f, g]
  | other => other

def compressBlock (H : List Nat) (block : List Nat) : List Nat :=
  let ws := extendSchedule 48 (be32of block)
  let st := (sha256K.zip ws).foldl compressStep H
  (H.zip st).map (fun p => w32 (p.1 + p.2))

def sha256 (msg : List Nat) : List Nat :=
  (((chunks64 (sha256pad msg)).foldl compressBlock sha256H0).map (beBytes 4)).flatten

def hexChar (n : Nat) : Char :=
  if n < 10 then Char.ofNat (48 + n) else Char.ofNat (87 + n)

/-- `hexdigest()`: lowercase hex. -/
def bytesToHex (bs : List Nat) : String :=
  String.mk ((bs.map (fun b => [hexChar (b / 16), hexChar (b % 16)])).flatten)

/-- UTF-8 bytes of a character (`str.encode()`). -/
def utf8Bytes (c : Char) : List Nat :=
  let n := c.toNat
  if n < 128 then [n]
  else if n < 2048 then [192 + n / 64, 128 + n % 64]
  else if n < 65536 then [224 + n / 4096, 128 + (n / 64) % 64, 128 + n % 64]
  else [240 + n / 262144, 128 + (n / 4096) % 64, 128 + (n / 64) % 64, 128 + n % 64]

def strToBytes (s : String) : List Nat := (s.data.map utf8Bytes).flatten

/-- FIPS 180-4 test vector, checking the implementation. -/
lemma sha256_abc :
    bytesToHex (sha256 (strToBytes "abc"))
      = "ba7816bf8f01cfea414140de5dae2223b00361a396177a9cb410ff61f20015ad" := by
  decide

/-- Lexicographic code-point comparison (Python `<` on `str`). -/
def pyStrLt (a b : List Char) : Bool :=
  match a, b with
  | [], [] => false
  | [], _ :: _ => true
  | _ :: _, [] => false
  | x :: xs, y :: ys =>
      if x.toNat < y.toNat then true
      else if y.toNat < x.toNat then false
      else pyStrLt xs ys

def insertStr (a : String) : List String → List String
  | [] => [a]
  | b :: t => if pyStrLt b.data a.data then b :: insertStr a t else a :: b :: t

/-- `sorted(...)` on strings (ascending by code points). -/
def pySorted : List String → List String
  | [] => []
  | a :: t => insertStr a (pySorted t)

/-- `FeatureVersionManager._compute_checksum`:
`sha256("|".join(sorted(features)).encode()).hexdigest()[:16]`. -/
def compute_checksum (features : List String) : String :=
  (bytesToHex (sha256 (strToBytes (String.intercalate "|" (pySorted features))))).take 16

/-- `core/feature_versioning.py:FeatureSchema`. -/
structure FeatureSchema where
  version : String
  name : String
  description : String
  features : List String
  feature_types : List (String × String)
  created_at : String
  checksum : String
  metadata : List (String × String)
deriving DecidableEq

/-- `FeatureVersionManager` reduced to its in-memory `schemas` dict
(the `schema_<version>.json` files are persistence only and never
consulted by `get_schema`). -/
structure FeatureVersionManager where
  schemas : String → Option FeatureSchema

/-- `FeatureVersionManager.register_schema` (overwrites an existing
version after a warning; `created_at` stands for
`datetime.now().isoformat()`). -/
def FeatureVersionManager.register_schema (mgr : FeatureVersionManager)
    (version name : String) (features : List String)
    (feature_types : List (String × String)) (description : String)
    (metadata : List (String × String)) (created_at : String) :
    FeatureSchema × FeatureVersionManager :=
  let schema : FeatureSchema :=
    { version := version, name := name, description := description,
      features := features, feature_types := feature_types,
      created_at := created_at, checksum := compute_checksum features,
      metadata := metadata }
  (schema, ⟨fun v => if v = version then some schema else mgr.schemas v⟩)

/-- `FeatureVersionManager.get_schema`. -/
def FeatureVersionManager.get_schema (mgr : FeatureVersionManager)
    (version : String) : Option FeatureSchema :=
  mgr.schemas version

/-- C9: registering a schema and fetching it back by its version
returns the registered schema, whose checksum is the first 16 hex
characters of the SHA-256 digest of the `"|"`-joined, sorted feature
names. -/
theorem schema_checksum_roundtrip (mgr : FeatureVersionManager)
    (version name description : String) (features : List String)
    (feature_types metadata : List (String × String)) (created_at : String) :
    (mgr.register_schema version name features feature_types description metadata
        created_at).2.get_schema version
      = some (mgr.register_schema version name features feature_types description
          metadata created_at).1
    ∧ (mgr.register_schema version name features feature_types description metadata
        created_at).1.checksum
      = (bytesToHex (sha256 (strToBytes
          (String.intercalate "|" (pySorted features))))).take 16 := by
  constructor
  · show (if version = version then _ else _) = _
    rw [if_pos rfl]
    rfl
  · simp only [FeatureVersionManager.register_schema]
    unfold compute_checksum
    rfl

end SafeLink
